import Mathlib

/-!
Verification of the songlink CORS proxy (`src/main.rs`).

Shallow embedding of the Rust source of the `songlink-cors-proxy`
repository, together with theorems settling the specification claims.

The source is a single axum binary.  Its `/api/links` handler
(`proxy_handler`, `src/main.rs:116-189`) builds an upstream request URL
from the inbound query parameters, issues exactly one outbound GET, and
relays the decoded JSON result.  The binary contains no response cache
and no URL-rewriting step; where the specification's claims concern the
Cache component that is absent from `src/`, the cache is modelled from
the specification's own words (see `Cache` below), and this is stated in
the corresponding doc comments.
-/

namespace Songlink

/-! Percent encoding: the `urlencoding` crate.

The function `urlencoding::encode` walks the UTF-8 bytes of the input;
ASCII alphanumerics and `-`, `.`, `_`, `~` are kept, every other byte
becomes `%XY` with uppercase hexadecimal digits. -/

/-- The UTF-8 byte sequence of a single character. -/
def utf8Bytes (c : Char) : List Nat :=
  let n := c.toNat
  if n < 0x80 then [n]
  else if n < 0x800 then [0xC0 + n / 0x40, 0x80 + n % 0x40]
  else if n < 0x10000 then
    [0xE0 + n / 0x1000, 0x80 + (n / 0x40) % 0x40, 0x80 + n % 0x40]
  else
    [0xF0 + n / 0x40000, 0x80 + (n / 0x1000) % 0x40,
      0x80 + (n / 0x40) % 0x40, 0x80 + n % 0x40]

/-- Bytes `urlencoding::encode` leaves unescaped:
`b'A'..=b'Z' | b'a'..=b'z' | b'0'..=b'9' | b'-' | b'.' | b'_' | b'~'`. -/
def isUrlSafe (b : Nat) : Bool :=
  (65 ≤ b && b ≤ 90) || (97 ≤ b && b ≤ 122) || (48 ≤ b && b ≤ 57) ||
    b == 45 || b == 46 || b == 95 || b == 126

/-- Uppercase hexadecimal digit for `n < 16`. -/
def hexDigit (n : Nat) : Char :=
  if n < 10 then Char.ofNat (48 + n) else Char.ofNat (55 + n)

/-- Percent-encoding of one byte: kept verbatim when safe, else `%XY`. -/
def encodeByte (b : Nat) : List Char :=
  if isUrlSafe b then [Char.ofNat b] else ['%', hexDigit (b / 16), hexDigit (b % 16)]

/-- Model of `urlencoding::encode` on a whole string. -/
def percentEncode (s : String) : String :=
  ⟨(s.data.flatMap utf8Bytes).flatMap encodeByte⟩

/-! The inbound query: `ProxyQuery`, `src/main.rs:20-32`. -/

/-- The decoded JSON payload of an upstream response is treated as an
opaque value throughout the program (`serde_json::Value` is never
inspected); it is modelled as a `String`. -/
abbrev Payload := String

/-- From `struct ProxyQuery`: the `/api/links` query parameters.  `url` is
required (an empty string is still accepted); the six remaining
parameters are optional. -/
structure ProxyQuery where
  url : String
  user_country : Option String
  song_if_single : Option Bool
  platform : Option String
  entity_type : Option String
  id : Option String
  key : Option String
deriving Repr, DecidableEq

/-- Rust's `Display` for `bool`: the lowercase words `true` / `false`. -/
def boolDisplay (b : Bool) : String := if b then "true" else "false"

/-- From `proxy_handler`, `src/main.rs:120-148`: the upstream request URL is
assembled by successive `push_str` calls — the base endpoint, then
`url=<percent-encoded url>` when the url is nonempty, then each optional
parameter as `&name=value` in source order, values appended verbatim
(only the url value is percent-encoded). -/
def build_api_url (q : ProxyQuery) : String :=
  let s := "https://api.song.link/v1-alpha.1/links?"
  let s := if q.url.isEmpty then s else s ++ "url=" ++ percentEncode q.url
  let s := match q.user_country with
    | none => s
    | some country => s ++ "&userCountry=" ++ country
  let s := match q.song_if_single with
    | none => s
    | some b => s ++ "&songIfSingle=" ++ boolDisplay b
  let s := match q.platform with
    | none => s
    | some platform => s ++ "&platform=" ++ platform
  let s := match q.entity_type with
    | none => s
    | some t => s ++ "&type=" ++ t
  let s := match q.id with
    | none => s
    | some i => s ++ "&id=" ++ i
  let s := match q.key with
    | none => s
    | some k => s ++ "&key=" ++ k
  s

/-- One optional `&name=value` segment of the upstream URL, as the
specification describes it: omitted entirely when the parameter is
absent, appended without percent-encoding when present.  The first
argument is the full `&name=` piece of the segment. -/
def optSegment (seg : String) (v : Option String) : String :=
  match v with
  | none => ""
  | some v => seg ++ v

/-- The request key as the specification's Key Builder contract words
it: the fixed base endpoint, the percent-encoded URL value, then the six
optional parameters in the fixed order
{country, song-if-single, platform, entity-type, id, key}. -/
def spec_request_key (q : ProxyQuery) : String :=
  "https://api.song.link/v1-alpha.1/links?" ++ "url=" ++ percentEncode q.url
    ++ optSegment "&userCountry=" q.user_country
    ++ optSegment "&songIfSingle=" (q.song_if_single.map boolDisplay)
    ++ optSegment "&platform=" q.platform
    ++ optSegment "&type=" q.entity_type
    ++ optSegment "&id=" q.id
    ++ optSegment "&key=" q.key

/-! HTTP status codes.  The `http` crate's `StatusCode` holds a `u16`
in the range `100..=999`; `StatusCode::from_u16` succeeds exactly on
that range, and `is_success` means `200..=299`. -/

/-- Model of `http::StatusCode::from_u16`: succeeds exactly on
`100..=999`. -/
def StatusCode.from_u16 (n : Nat) : Option Nat :=
  if 100 ≤ n ∧ n ≤ 999 then some n else none

/-- Model of `StatusCode::is_success`: the 2xx range. -/
def is_success (n : Nat) : Bool :=
  200 ≤ n && n < 300

/-! The upstream interaction of `proxy_handler`, `src/main.rs:154-182`:
`client.get(&api_url).send()` may fail with a transport error; on
success the body is decoded with `response.json()`, which may fail with
a decode error.  The outcome of the single outbound call is modelled as
a value presented to the rest of the handler. -/

/-- Result of `response.json::<serde_json::Value>()`: either a decode
error with a message, or the decoded payload. -/
inductive DecodeResult where
  | err (msg : String)
  | ok (v : Payload)
deriving Repr, DecidableEq

/-- Result of `client.get(&api_url).send()`: either a transport error
with a message, or a response carrying a status code and a body to be
decoded. -/
inductive SendResult where
  | err (msg : String)
  | ok (status : Nat) (body : DecodeResult)
deriving Repr, DecidableEq

/-- The value returned by `proxy_handler` to the caller:
`okJson v` is `Ok(Json(json))` (HTTP 200 with the decoded body);
`errorResp s msg es` is a response with status `s` and an
`ErrorResponse { error: msg, status: es }` JSON body;
`passthrough s v` is a response with status `s` and the upstream body
`v` relayed verbatim. -/
inductive ProxyResult where
  | okJson (v : Payload)
  | errorResp (status : Nat) (msg : String) (estatus : Nat)
  | passthrough (status : Nat) (v : Payload)
deriving Repr, DecidableEq

/-- Observable side effects of one inbound request: the list of
outbound upstream GETs issued (the handler body contains exactly one
`send()` call and no loop or retry), and the list of cache writes
performed (the source contains no cache at all, so this list is empty
in every branch). -/
structure Effects where
  calls : List String
  cacheWrites : List (String × Payload)
deriving Repr, DecidableEq

/-- The rest of `proxy_handler` (`src/main.rs:154-189`) after the
single outbound call produced `r`: a transport error maps to a 502
`ErrorResponse`, a decode error maps to a 502 `ErrorResponse`, a
successfully decoded body is returned as-is on a 2xx status and
relayed with `StatusCode::from_u16(status.as_u16())
.unwrap_or(StatusCode::INTERNAL_SERVER_ERROR)` otherwise. -/
def proxy_core (q : ProxyQuery) (r : SendResult) : ProxyResult × Effects :=
  let api_url := build_api_url q
  match r with
  | .err e =>
      (.errorResp 502 ("Failed to fetch from Songlink API: " ++ e) 502, ⟨[api_url], []⟩)
  | .ok status body =>
      match body with
      | .err e =>
          (.errorResp 502 ("Failed to parse response: " ++ e) 502, ⟨[api_url], []⟩)
      | .ok json =>
          if is_success status then
            (.okJson json, ⟨[api_url], []⟩)
          else
            (.passthrough ((StatusCode.from_u16 status).getD 500) json, ⟨[api_url], []⟩)

/-- The whole of `proxy_handler` (`src/main.rs:116-189`): build the
upstream URL from the query, issue the one outbound GET against the
upstream (modelled as a function from URL to outcome), and produce the
response. -/
def proxy_handler (q : ProxyQuery) (upstream : String → SendResult) :
    ProxyResult × Effects :=
  proxy_core q (upstream (build_api_url q))

/-- Sequential handling of a list of inbound `/api/links` requests
against a fixed upstream, accumulating the side effects of each
request in order. -/
def handle_requests (qs : List ProxyQuery) (upstream : String → SendResult) :
    List ProxyResult × Effects :=
  match qs with
  | [] => ([], ⟨[], []⟩)
  | q :: rest =>
      let re := proxy_handler q upstream
      let rest' := handle_requests rest upstream
      (re.1 :: rest'.1,
        ⟨re.2.calls ++ rest'.2.calls, re.2.cacheWrites ++ rest'.2.cacheWrites⟩)

/-! The two remaining routes, `src/main.rs:191-201`. -/

/-- A plain HTTP response: status, headers, body. -/
structure HttpResponse where
  status : Nat
  headers : List (String × String)
  body : String
deriving Repr, DecidableEq

/-- From `root_redirect`, `src/main.rs:191-197`:
`(StatusCode::TEMPORARY_REDIRECT, [(LOCATION, "https://monochrome.tf")])`. -/
def root_redirect : HttpResponse :=
  ⟨307, [("location", "https://monochrome.tf")], ""⟩

/-- From `health_check`, `src/main.rs:199-201`: a `&'static str` body,
which axum turns into a 200 plain-text response. -/
def health_check : HttpResponse :=
  ⟨200, [], "OK"⟩

/-! The URL Normalizer described by the specification.  The source
under `src/` contains no normalization step: `proxy_handler` percent-
encodes `params.url` exactly as received (`src/main.rs:120-124`).  The
specification's normalizer is defined here from its own words, to be
compared against what the code does. -/

/-- Modelled from the spec: the repository's `src/` contains no mirror
rewrite rule list; this is the ordered list of
(mirror-substring, canonical-host) rules the specification describes,
with the one concrete rule its end-to-end scenario 1 gives:
`monochrome.tf` rewrites to `listen.tidal.com`. -/
def mirrorRules : List (String × String) :=
  [("monochrome.tf", "listen.tidal.com")]

/-- Whether `pat` occurs as a contiguous substring of `l`. -/
def occursIn (pat : List Char) : List Char → Bool
  | [] => pat.isEmpty
  | c :: cs => pat.isPrefixOf (c :: cs) || occursIn pat cs

/-- Replace the first occurrence of `pat` in the list by `rep`. -/
def replaceFirst (pat rep : List Char) : List Char → List Char
  | [] => []
  | c :: cs =>
      if pat.isPrefixOf (c :: cs) then rep ++ (c :: cs).drop pat.length
      else c :: replaceFirst pat rep cs

/-- Modelled from the spec: the URL Normalizer contract of §4.1 — scan
the ordered rule list, apply at most the first rule whose mirror
substring occurs in the URL (rewriting it to the canonical host), and
return the URL unchanged when no rule matches. -/
def spec_normalize (url : String) : String :=
  match mirrorRules.find? (fun r => occursIn r.1.data url.data) with
  | none => url
  | some r => ⟨replaceFirst r.1.data r.2.data url.data⟩

/-! The Response Cache described by the specification.  The source
under `src/` contains no cache implementation at all — `proxy_handler`
calls upstream on every request — so the Cache component of spec §3 and
§4.3 is modelled here from the specification's words. -/

/-- Modelled from the spec: a cache entry is an opaque payload plus the
absolute timestamp after which the entry is stale. -/
structure CacheEntry where
  payload : Payload
  expiresAt : Nat
deriving Repr, DecidableEq

/-- Modelled from the spec: the missing Cache component.  Entries are
kept in recency order, most recently used first, so the
least-recently-used entry is the last one; `capacity` and `ttl` are
fixed at construction. -/
structure Cache where
  capacity : Nat
  ttl : Nat
  entries : List (String × CacheEntry)
deriving Repr, DecidableEq

/-- Spec §4.3: fixed capacity of 1000 entries. -/
def cacheCapacity : Nat := 1000

/-- Spec §4.3: fixed TTL of 30 days, in seconds. -/
def cacheTTL : Nat := 30 * 24 * 60 * 60

/-- Remove the entry with key `k`, if any. -/
def eraseKey (k : String) (l : List (String × CacheEntry)) :
    List (String × CacheEntry) :=
  l.filter (fun kv => kv.1 != k)

/-- Modelled from the spec: `get` looks the key up; a find whose
`expiresAt` has not passed returns the payload and moves the entry to
the most-recently-used position; a find whose `expiresAt` has passed is
treated as a miss and the entry is left physically in place; a missing
key is a miss. -/
def Cache.get (c : Cache) (k : String) (now : Nat) : Option Payload × Cache :=
  match c.entries.find? (fun kv => kv.1 == k) with
  | none => (none, c)
  | some kv =>
      if now ≤ kv.2.expiresAt then
        (some kv.2.payload, { c with entries := kv :: eraseKey k c.entries })
      else
        (none, c)

/-- Modelled from the spec: `put` inserts or replaces the entry with
`expiresAt = now + ttl` at the most-recently-used position, evicting
from the least-recently-used end whenever the insert would otherwise
exceed capacity. -/
def Cache.put (c : Cache) (k : String) (p : Payload) (now : Nat) : Cache :=
  { c with
    entries := (k, ⟨p, now + c.ttl⟩) :: (eraseKey k c.entries).take (c.capacity - 1) }

/-! Concrete inputs used by counterexamples and witnesses. -/

/-- The end-to-end scenario 1 inbound query: the mirror URL with none
of the six optional parameters supplied. -/
def q0 : ProxyQuery :=
  ⟨"https://monochrome.tf/#/track/1", none, none, none, none, none, none⟩

/-- A mock upstream answering every call with HTTP 200 and the decoded
body `"X"`. -/
def u0 : String → SendResult := fun _ => .ok 200 (.ok "X")

/-- Helper: in every branch of the handler the side effects are one
outbound call to the built URL and no cache write. -/
theorem proxy_core_effects (q : ProxyQuery) (r : SendResult) :
    (proxy_core q r).2 = ⟨[build_api_url q], []⟩ := by
  rcases r with e | ⟨s, body⟩
  · rfl
  · rcases body with e | v
    · rfl
    · by_cases hs : is_success s <;> simp [proxy_core, hs]

/-- C1 (amended): the handler performs no caching at all, so every
inbound `/api/links` request issues exactly one outbound upstream call
and writes nothing to any cache — in particular, consecutive identical
requests each trigger their own upstream call. -/
theorem upstream_calls_match_requests (qs : List ProxyQuery) (u : String → SendResult) :
    (handle_requests qs u).2.calls.length = qs.length ∧
    (handle_requests qs u).2.cacheWrites = [] := by
  induction qs with
  | nil => simp [handle_requests]
  | cons q rest ih =>
      have hq := proxy_core_effects q (u (build_api_url q))
      simp [handle_requests, proxy_handler, hq, ih.1, ih.2]

/-- C1 (counterexample): two consecutive identical inbound requests,
both answered successfully by the upstream, result in two outbound
upstream calls, not one — the second request is not served from any
cache. -/
theorem two_identical_requests_two_upstream_calls :
    (handle_requests [q0, q0] u0).2.calls.length = 2 ∧
    ¬ (handle_requests [q0, q0] u0).2.calls.length = 1 ∧
    (handle_requests [q0, q0] u0).1 = [.okJson "X", .okJson "X"] := by
  refine ⟨by decide, by decide, by decide⟩

/-- C2 (counterexample): the specification's normalizer rewrites the
scenario-1 mirror URL to the canonical host, but the upstream URL the
handler actually builds still contains the percent-encoded mirror host
`monochrome.tf` and does not contain `listen.tidal.com`: no rewrite
happens before key building. -/
theorem key_built_from_unnormalized_url :
    spec_normalize "https://monochrome.tf/#/track/1" =
      "https://listen.tidal.com/#/track/1" ∧
    build_api_url q0 =
      "https://api.song.link/v1-alpha.1/links?url=https%3A%2F%2Fmonochrome.tf%2F%23%2Ftrack%2F1" ∧
    occursIn "listen.tidal.com".data (build_api_url q0).data = false ∧
    occursIn "monochrome.tf".data (build_api_url q0).data = true := by
  refine ⟨by decide, by decide, by decide, by decide⟩

/-- C2 (amended): no URL normalization is applied before key building —
the handler passes the inbound `url` value verbatim (percent-encoded
only) into the request key, for every nonempty URL. -/
theorem build_api_url_uses_url_verbatim (s : String) (h : s.isEmpty = false) :
    build_api_url ⟨s, none, none, none, none, none, none⟩ =
      "https://api.song.link/v1-alpha.1/links?url=" ++ percentEncode s := by
  simp [build_api_url, h]

/-- Witness for C2 (amended) at the scenario-1 mirror URL. -/
theorem build_api_url_uses_url_verbatim_witness :
    ("https://monochrome.tf/#/track/1" : String).isEmpty = false ∧
    build_api_url ⟨"https://monochrome.tf/#/track/1", none, none, none, none, none, none⟩ =
      "https://api.song.link/v1-alpha.1/links?url="
        ++ percentEncode "https://monochrome.tf/#/track/1" :=
  ⟨by decide, build_api_url_uses_url_verbatim _ (by decide)⟩

/-- C5: for every query with a nonempty URL, the request key built by
the handler is exactly the fixed base endpoint, the percent-encoded URL
value, then each optional parameter appended as `&name=value` — only if
present, in the fixed order {country, song-if-single, platform,
entity-type, id, key}, the boolean as lowercase `true`/`false`, and all
values other than the URL appended without percent-encoding.  Identical
inputs yield byte-identical keys since `build_api_url` is a pure
function. -/
theorem build_api_url_eq_spec_request_key (q : ProxyQuery) (h : q.url.isEmpty = false) :
    build_api_url q = spec_request_key q := by
  obtain ⟨u, uc, sis, p, t, i, k⟩ := q
  simp only [ProxyQuery.url] at h
  rcases uc with _ | c <;> rcases sis with _ | b <;> rcases p with _ | pl <;>
    rcases t with _ | ty <;> rcases i with _ | idv <;> rcases k with _ | kv <;>
    simp [build_api_url, spec_request_key, optSegment, h,
      String.append_assoc, String.append_empty]

/-- Witness for C5 at a concrete query with a mix of present and
absent optional parameters. -/
theorem build_api_url_eq_spec_request_key_witness :
    (⟨"x", some "US", some true, none, none, some "42", none⟩ : ProxyQuery).url.isEmpty = false ∧
    build_api_url ⟨"x", some "US", some true, none, none, some "42", none⟩ =
      spec_request_key ⟨"x", some "US", some true, none, none, some "42", none⟩ :=
  ⟨by decide, build_api_url_eq_spec_request_key _ (by decide)⟩

/-- C10: when the required `url` parameter is supplied as the empty
string the request is still handled, the `url=` segment is omitted
entirely, and the constructed upstream URL is the bare base endpoint
followed directly by the `&name=value` segments of whichever optional
parameters are present. -/
theorem empty_url_omits_url_segment (uc : Option String) (sis : Option Bool)
    (p t i k : Option String) :
    build_api_url ⟨"", uc, sis, p, t, i, k⟩ =
      "https://api.song.link/v1-alpha.1/links?"
        ++ optSegment "&userCountry=" uc
        ++ optSegment "&songIfSingle=" (sis.map boolDisplay)
        ++ optSegment "&platform=" p
        ++ optSegment "&type=" t
        ++ optSegment "&id=" i
        ++ optSegment "&key=" k := by
  have he : ("" : String).isEmpty = true := rfl
  rcases uc with _ | c <;> rcases sis with _ | b <;> rcases p with _ | pl <;>
    rcases t with _ | ty <;> rcases i with _ | idv <;> rcases k with _ | kv <;>
    simp [build_api_url, optSegment, he, ← String.append_assoc, String.append_empty]

/-- C6: an upstream response with a non-2xx status code and a
JSON-decodable body is relayed to the caller with that exact body and
the upstream's own status code, and nothing is written to any cache. -/
theorem non2xx_body_relayed_not_cached (q : ProxyQuery) (s : Nat) (v : Payload)
    (h1 : 100 ≤ s) (h2 : s ≤ 999) (hf : is_success s = false) :
    (proxy_core q (.ok s (.ok v))).1 = .passthrough s v ∧
    (proxy_core q (.ok s (.ok v))).2.cacheWrites = [] := by
  constructor
  · simp [proxy_core, hf, StatusCode.from_u16, h1, h2]
  · rw [proxy_core_effects]

/-- Witness for C6 at the end-to-end scenario 2 status 404. -/
theorem non2xx_body_relayed_not_cached_witness :
    100 ≤ 404 ∧ 404 ≤ 999 ∧ is_success 404 = false ∧
    ((proxy_core q0 (.ok 404 (.ok "nf"))).1 = .passthrough 404 "nf" ∧
     (proxy_core q0 (.ok 404 (.ok "nf"))).2.cacheWrites = []) :=
  ⟨by decide, by decide, by decide,
    non2xx_body_relayed_not_cached q0 404 "nf" (by decide) (by decide) (by decide)⟩

/-- C7: a transport failure of the outbound call and a JSON-decode
failure of the body both produce a 502 response whose body has the
shape `{error: string, status: 502}` with a human-readable message;
neither is cached, and the handler issues exactly one upstream attempt
per inbound request — no retry. -/
theorem transport_failure_502_single_attempt (q : ProxyQuery) (e : String) (s : Nat)
    (u : String → SendResult) :
    (proxy_core q (.err e)).1 =
      .errorResp 502 ("Failed to fetch from Songlink API: " ++ e) 502 ∧
    (proxy_core q (.ok s (.err e))).1 =
      .errorResp 502 ("Failed to parse response: " ++ e) 502 ∧
    (proxy_core q (.err e)).2.cacheWrites = [] ∧
    (proxy_core q (.ok s (.err e))).2.cacheWrites = [] ∧
    (proxy_handler q u).2.calls = [build_api_url q] := by
  refine ⟨rfl, rfl, rfl, rfl, ?_⟩
  show (proxy_core q (u (build_api_url q))).2.calls = [build_api_url q]
  rw [proxy_core_effects]

/-- C9: every status value a real upstream response can carry lies in
`100..=999`, and on that range the round-trip through `as_u16` and
`StatusCode::from_u16` succeeds, so the `unwrap_or(500)` fallback in
the non-2xx branch is unreachable and the relayed status always equals
the upstream status exactly. -/
theorem status_roundtrip_fallback_unreachable (s : Nat) (h1 : 100 ≤ s) (h2 : s ≤ 999) :
    StatusCode.from_u16 s = some s ∧
    (StatusCode.from_u16 s).getD 500 = s ∧
    (∀ (q : ProxyQuery) (v : Payload), is_success s = false →
      (proxy_core q (.ok s (.ok v))).1 = .passthrough s v) := by
  have hfu : StatusCode.from_u16 s = some s := by
    simp [StatusCode.from_u16, h1, h2]
  refine ⟨hfu, by simp [hfu], fun q v hf => by simp [proxy_core, hf, hfu]⟩

/-- Witness for C9 at status 404. -/
theorem status_roundtrip_fallback_unreachable_witness :
    100 ≤ 404 ∧ 404 ≤ 999 ∧
    (StatusCode.from_u16 404 = some 404 ∧
     (StatusCode.from_u16 404).getD 500 = 404 ∧
     (∀ (q : ProxyQuery) (v : Payload), is_success 404 = false →
       (proxy_core q (.ok 404 (.ok v))).1 = .passthrough 404 v)) :=
  ⟨by decide, by decide, status_roundtrip_fallback_unreachable 404 (by decide) (by decide)⟩

/-- C8: a GET on `/` answers HTTP 307 with
`Location: https://monochrome.tf`, and a GET on `/health` answers
HTTP 200 with the plain-text body `OK`. -/
theorem root_and_health_responses :
    root_redirect.status = 307 ∧
    root_redirect.headers = [("location", "https://monochrome.tf")] ∧
    health_check.status = 200 ∧
    health_check.body = "OK" := by
  refine ⟨rfl, rfl, rfl, rfl⟩

/-- C3 (on the spec-modelled cache): a cache of the fixed capacity 1000
never exceeds 1000 entries — the bound is preserved by every `get` and
every `put` — and a `put` with a new key into a full cache evicts
exactly the least-recently-used entry (the last in recency order),
keeping all others. -/
theorem cache_capacity_invariant (c : Cache) (k : String) (p : Payload) (now : Nat)
    (hcap : c.capacity = cacheCapacity) (hlen : c.entries.length ≤ cacheCapacity) :
    ((c.get k now).2.entries.length ≤ cacheCapacity ∧
     (c.put k p now).entries.length ≤ cacheCapacity) ∧
    (c.entries.length = cacheCapacity →
      c.entries.find? (fun kv => kv.1 == k) = none →
      (c.put k p now).entries = (k, ⟨p, now + c.ttl⟩) :: c.entries.dropLast) := by
  refine ⟨⟨?_, ?_⟩, ?_⟩
  · unfold Cache.get
    cases hf : c.entries.find? (fun kv => kv.1 == k) with
    | none => simpa using hlen
    | some kv =>
        by_cases hle : now ≤ kv.2.expiresAt
        · have hmem := List.mem_of_find?_eq_some hf
          have hbeq : (kv.1 == k) = true := by simpa using List.find?_some hf
          have hlt : (eraseKey k c.entries).length < c.entries.length := by
            unfold eraseKey
            exact List.length_filter_lt_length_iff_exists.mpr
              ⟨kv, hmem, by simp [bne, hbeq]⟩
          simp only [if_pos hle, List.length_cons]
          omega
        · simp only [if_neg hle]
          exact hlen
  · unfold Cache.put
    have h1 := List.length_take (c.capacity - 1) (eraseKey k c.entries)
    simp only [List.length_cons]
    rw [hcap] at h1 ⊢
    simp only [cacheCapacity] at h1 ⊢
    omega
  · intro hfull hnone
    have herase : eraseKey k c.entries = c.entries := by
      unfold eraseKey
      refine List.filter_eq_self.mpr ?_
      intro kv hmem
      have hne := List.find?_eq_none.mp hnone kv hmem
      simpa using hne
    have hm : ((k, (⟨p, now + c.ttl⟩ : CacheEntry)) ::
          (eraseKey k c.entries).take (c.capacity - 1) :
        List (String × CacheEntry)) = (k, ⟨p, now + c.ttl⟩) :: c.entries.dropLast := by
      rw [herase, hcap, ← hfull, ← List.dropLast_eq_take]
    exact hm

/-- Witness for C3 at a fresh cache of capacity 1000. -/
theorem cache_capacity_invariant_witness :
    (⟨cacheCapacity, cacheTTL, []⟩ : Cache).capacity = cacheCapacity ∧
    (⟨cacheCapacity, cacheTTL, []⟩ : Cache).entries.length ≤ cacheCapacity ∧
    ((((⟨cacheCapacity, cacheTTL, []⟩ : Cache).get "k" 0).2.entries.length ≤ cacheCapacity ∧
      ((⟨cacheCapacity, cacheTTL, []⟩ : Cache).put "k" "v" 0).entries.length ≤ cacheCapacity) ∧
     ((⟨cacheCapacity, cacheTTL, []⟩ : Cache).entries.length = cacheCapacity →
       (⟨cacheCapacity, cacheTTL, []⟩ : Cache).entries.find? (fun kv => kv.1 == "k") = none →
       ((⟨cacheCapacity, cacheTTL, []⟩ : Cache).put "k" "v" 0).entries =
         ("k", ⟨"v", 0 + (⟨cacheCapacity, cacheTTL, []⟩ : Cache).ttl⟩) ::
           (⟨cacheCapacity, cacheTTL, []⟩ : Cache).entries.dropLast)) :=
  ⟨rfl, by decide, cache_capacity_invariant _ "k" "v" 0 rfl (by decide)⟩

/-- C4 (on the spec-modelled cache): a `get` on a key whose entry's
`expiresAt` has passed signals absence — the stale value is never
returned — and leaves the cache untouched, so the expired entry remains
physically present until evicted by capacity pressure; no sweep exists,
expiry being checked only inside `get`. -/
theorem cache_get_expired_signals_absence (c : Cache) (k : String) (now : Nat)
    (kv : String × CacheEntry)
    (hfind : c.entries.find? (fun x => x.1 == k) = some kv)
    (hexp : kv.2.expiresAt < now) :
    (c.get k now).1 = none ∧ (c.get k now).2 = c := by
  have hmiss : c.get k now = (none, c) := by
    unfold Cache.get
    rw [hfind]
    exact if_neg (by omega)
  exact ⟨by rw [hmiss], by rw [hmiss]⟩

/-- A one-entry cache whose entry expired at time 5. -/
def expiredCache : Cache := ⟨cacheCapacity, cacheTTL, [("k", ⟨"v", 5⟩)]⟩

/-- Witness for C4 at a concrete expired entry read at time 6. -/
theorem cache_get_expired_signals_absence_witness :
    expiredCache.entries.find? (fun x => x.1 == "k") = some ("k", ⟨"v", 5⟩) ∧
    (("k", (⟨"v", 5⟩ : CacheEntry)) : String × CacheEntry).2.expiresAt < 6 ∧
    ((expiredCache.get "k" 6).1 = none ∧ (expiredCache.get "k" 6).2 = expiredCache) :=
  ⟨by decide, by decide,
    cache_get_expired_signals_absence expiredCache "k" 6 ("k", ⟨"v", 5⟩)
      (by decide) (by decide)⟩

end Songlink
